import Mathlib

/-!
Verification development for the digital-assistant-quality-starter backend.

The Python sources are shallowly embedded: numeric scores become rationals,
Python dicts with a fixed key set become structures, dicts used as sets or
string maps become association lists, and fallible code returns Option.
External collaborators (the embedding model, the FAISS nearest-neighbour
search, the LLM) are passed in as oracle arguments; everything downstream of
those calls is translated directly from the source.
-/

namespace FaqEngine

/-- One FAQ entry as loaded from faq_data.json.  The `id` key may be absent
(`faq.get("id", f"faq-{faq_idx}")`), hence an Option; `sources` entries are
opaque payload dicts, modelled as opaque tokens. -/
structure FAQEntry where
  faqId : Option String
  category : String
  answer : String
  questions : List String
  sources : List String
deriving DecidableEq, Repr

/-- FAQMatch dataclass from app/features/faq/faq_service.py. -/
structure FAQMatch where
  faq_id : String
  category : String
  matched_question : String
  answer : String
  score : ℚ
  related_questions : List String
  sources : List String
deriving DecidableEq, Repr

/-- FAQService in-memory state after `_load_and_index`: the flattened question
list and the question-to-FAQ index map.  The FAISS index and the embedding
model are external; `match` below takes the raw search output as an oracle
argument. -/
structure FAQService where
  faqs : List FAQEntry
  questions : List String
  question_to_faq : List Nat
deriving Repr

/-- FAQService.HIGH_CONFIDENCE_THRESHOLD. -/
def HIGH_CONFIDENCE_THRESHOLD : ℚ := 0.85

/-- FAQService.SUGGEST_THRESHOLD. -/
def SUGGEST_THRESHOLD : ℚ := 0.70

/-- The faq_id computed in the match loop: `faq.get("id", f"faq-{faq_idx}")`. -/
def faqIdOf (faq_idx : Nat) (faq : FAQEntry) : String :=
  faq.faqId.getD ("faq-" ++ toString faq_idx)

/-- The body of the `for score, idx in zip(scores[0], indices[0])` loop in
FAQService.match.  `seen` is the `seen_faqs` set.  A failed list access
raises in Python and makes the whole call return [] through the
`except` clause, hence the Option result. -/
def matchLoop (svc : FAQService) : List (ℚ × Int) → List String → Option (List FAQMatch)
  | [], _ => some []
  | (score, idx) :: rest, seen =>
    if idx < 0 ∨ (svc.questions.length : Int) ≤ idx then
      matchLoop svc rest seen
    else
      match svc.question_to_faq[idx.toNat]? with
      | none => none
      | some faq_idx =>
        match svc.faqs[faq_idx]?, svc.questions[idx.toNat]? with
        | some faq, some q =>
          if faqIdOf faq_idx faq ∈ seen then
            matchLoop svc rest seen
          else
            match matchLoop svc rest (faqIdOf faq_idx faq :: seen) with
            | none => none
            | some ms =>
              some ({ faq_id := faqIdOf faq_idx faq
                      category := faq.category
                      matched_question := q
                      answer := faq.answer
                      score := score
                      related_questions := (faq.questions.filter (· ≠ q)).take 5
                      sources := faq.sources } :: ms)
        | _, _ => none

/-- The FAQ id a search row resolves to in the match loop: none when the
row index is invalid or a lookup would raise. -/
def rowFaqId (svc : FAQService) (idx : Int) : Option String :=
  if idx < 0 ∨ (svc.questions.length : Int) ≤ idx then none
  else
    (svc.question_to_faq[idx.toNat]?).bind fun faq_idx =>
      (svc.faqs[faq_idx]?).map fun faq => faqIdOf faq_idx faq

/-- FAQService.match: `searchRes` is the oracle output of
`self.index.search(query_embedding, k)` flattened to (score, idx) rows.
Any exception in the loop returns []. -/
def FAQService.matchFn (svc : FAQService) (searchRes : List (ℚ × Int)) : List FAQMatch :=
  (matchLoop svc searchRes []).getD []

/-- FAQService.get_best_match: calls match with k=1 (whose search output is
`searchRes`) and maps the best score to a decision string. -/
def FAQService.get_best_match (svc : FAQService) (searchRes : List (ℚ × Int)) :
    Option FAQMatch × String :=
  match svc.matchFn searchRes with
  | [] => (none, "none")
  | best_match :: _ =>
    if best_match.score ≥ HIGH_CONFIDENCE_THRESHOLD then (some best_match, "exact")
    else if best_match.score ≥ SUGGEST_THRESHOLD then (some best_match, "suggest")
    else (some best_match, "none")

end FaqEngine

/-- One entry of a session recent_messages window: a {role, content} dict. -/
structure ChatMsg where
  role : String
  content : String
deriving DecidableEq, Repr

/-- Truthiness of `s.strip()` in Python: the string has a non-whitespace
character. -/
def pyNonBlank (s : String) : Bool :=
  s.data.any (fun c => !c.isWhitespace)

/-- Python slice `l[-n:]`: the last n elements (all of them when the list is
shorter). -/
def pyLastN (n : Nat) (l : List α) : List α :=
  l.drop (l.length - n)

namespace ReasoningLoop

/-- MAX_TOOL_ROUNDS from app/steps/state.py. -/
def MAX_TOOL_ROUNDS : Nat := 3

/-- The tool_rounds value in the update returned by build_prompt
(app/steps/memory/prompt.py returns tool_rounds := 0). -/
def build_prompt_tool_rounds : Nat := 0

/-- The tool_rounds value in the update returned by call_llm
(app/steps/memory/llm.py returns tool_rounds := tool_rounds + 1). -/
def call_llm_tool_rounds (tool_rounds : Nat) : Nat := tool_rounds + 1

/-- should_continue conditional edge from app/steps/memory/llm.py.
`lastMsgHasToolCalls` abstracts the check
`isinstance(last_msg, AIMessage) and last_msg.tool_calls`. -/
def should_continue (lastMsgHasToolCalls : Bool) (tool_rounds : Nat) : String :=
  if lastMsgHasToolCalls && decide (tool_rounds < MAX_TOOL_ROUNDS) then "execute_tools"
  else "bundle_sources"

/-- The build_prompt → call_llm ⇄ execute_tools loop of the graph, counting
LLM invocations.  `oracle i` tells whether the i-th LLM response requests
tool calls; one call_llm happens, then the should_continue edge decides
whether execute_tools re-enters call_llm. -/
def loopLLMCalls (oracle : Nat → Bool) (i tool_rounds : Nat) : Nat :=
  if h : should_continue (oracle i) (call_llm_tool_rounds tool_rounds) = "execute_tools" then
    1 + loopLLMCalls oracle (i + 1) (call_llm_tool_rounds tool_rounds)
  else 1
termination_by MAX_TOOL_ROUNDS - tool_rounds
decreasing_by
  simp only [should_continue, call_llm_tool_rounds] at h
  split at h
  · rename_i hc
    simp only [Bool.and_eq_true, decide_eq_true_eq, MAX_TOOL_ROUNDS] at hc
    simp only [call_llm_tool_rounds, MAX_TOOL_ROUNDS]
    omega
  · exact absurd h (by decide)

/-- LLM invocations in one turn on the reasoning path: the loop entered with
the counter build_prompt initialised to 0. -/
def turnLLMCalls (oracle : Nat → Bool) : Nat :=
  loopLLMCalls oracle 0 build_prompt_tool_rounds

end ReasoningLoop

namespace MemoryUpdate

/-- The recent-messages section of update_memory
(app/steps/memory/memory_update.py lines 125-131): append the pair only when
the assistant text is non-blank, then keep the last 10 entries. -/
def updateRecentMessages (recent : List ChatMsg) (message assistant_text : String) :
    List ChatMsg :=
  if pyNonBlank assistant_text then
    pyLastN 10 (recent ++ [⟨"user", message⟩, ⟨"assistant", assistant_text⟩])
  else recent

/-- The recent-messages window after a sequence of turns
(message, assistant_text), starting from a fresh session. -/
def runRecentWindow (turns : List (String × String)) : List ChatMsg :=
  turns.foldl (fun recent t => updateRecentMessages recent t.1 t.2) []

end MemoryUpdate

namespace RefinePolicy

/-- The numeric evaluation scores read by decide_refine
(app/steps/memory/refine_policy.py); a field is `some q` exactly when
`_as_float` accepts the dict value. -/
structure Evaluation where
  relevance : Option ℚ
  groundedness : Option ℚ
  completeness : Option ℚ
  tone : Option ℚ
  policy_compliance : Option ℚ
deriving DecidableEq, Repr

/-- The source_validation sub-record as read by decide_refine: only the
grounded flag is consulted (`source_validation.get("grounded") is False`). -/
structure SourceValidation where
  grounded : Option Bool
deriving DecidableEq, Repr

/-- The tone_validation sub-record as read by decide_refine: only the
appropriate flag is consulted. -/
structure ToneValidation where
  appropriate : Option Bool
deriving DecidableEq, Repr

/-- The decision dict returned by decide_refine (thresholds and scores_used
are echoes of the inputs and are omitted). -/
structure RefineDecision where
  should_refine : Bool
  reasons : List String
deriving DecidableEq, Repr

instance : Inhabited RefineDecision :=
  ⟨{ should_refine := false, reasons := [] }⟩

/-- The test `scores[k] is not None and scores[k] < thresholds[k]`. -/
def scoreBelow (v : Option ℚ) (t : ℚ) : Bool :=
  match v with
  | some q => decide (q < t)
  | none => false

/-- decide_refine from app/steps/memory/refine_policy.py.  A `none` argument
models a None/missing record (`evaluation or {}`). -/
def decide_refine (evaluation : Option Evaluation)
    (source_validation : Option SourceValidation)
    (tone_validation : Option ToneValidation) : RefineDecision :=
  let ev := evaluation.getD ⟨none, none, none, none, none⟩
  let sv := source_validation.getD ⟨none⟩
  let tv := tone_validation.getD ⟨none⟩
  let reasons : List String :=
    (if scoreBelow ev.relevance 0.6 then ["Low relevance to the user question"] else []) ++
    (if scoreBelow ev.groundedness 0.6 then ["Answer not sufficiently grounded in sources"]
     else if sv.grounded = some false then ["Source validation flagged grounding issues"]
     else []) ++
    (if scoreBelow ev.completeness 0.5 then ["Answer seems incomplete for the user need"]
     else []) ++
    (if scoreBelow ev.tone 0.6 then ["Tone is not aligned with public-sector guidelines"]
     else if tv.appropriate = some false then ["Tone validation flagged issues"]
     else []) ++
    (if scoreBelow ev.policy_compliance 0.6 then ["Potential policy/ethics compliance risks"]
     else [])
  { should_refine := decide (reasons.length > 0), reasons := reasons }

end RefinePolicy

/-- Python str.strip(): whitespace removed from both ends. -/
def pyStrip (s : String) : String :=
  ⟨((s.data.dropWhile Char.isWhitespace).reverse.dropWhile Char.isWhitespace).reverse⟩

/-- Python str.lower(). -/
def pyLower (s : String) : String :=
  ⟨s.data.map Char.toLower⟩

/-- Python slice `s[n:]` (by characters). -/
def pyDropChars (n : Nat) (s : String) : String :=
  ⟨s.data.drop n⟩

/-- Python str.startswith. -/
def pyStartsWith (s pre : String) : Bool :=
  pre.data.isPrefixOf s.data

/-- Python substring membership `needle in haystack`. -/
def pySubstr (needle haystack : String) : Bool :=
  decide (List.IsInfix needle.data haystack.data)

namespace RefineStep

open RefinePolicy

/-- A partial state update returned by the refine / quality-gate nodes:
`none` fields are keys absent from the returned dict. -/
structure RefineUpdate where
  assistant_text : Option String := none
  refined_once : Option Bool := none
  answer_before : Option String := none
deriving DecidableEq, Repr

/-- The slice of ChatState read by the quality-gate and refine nodes.
Absent dict keys are modelled by `false` for refined_once
(`state.get("refined_once")` is falsy) and `none` for the sub-records. -/
structure QualityState where
  refined_once : Bool
  refine_decision : Option RefineDecision
  message : String
  assistant_text : String
  answer_evaluation : Option Evaluation
  source_validation : Option SourceValidation
  tone_validation : Option ToneValidation
deriving Repr

/-- Outcome of the LLM call inside refine_answer: a returned content
(Python None content is `ok none`) or a raised exception. -/
inductive RefineCallResult where
  | ok (content : Option String)
  | exc
deriving DecidableEq, Repr

/-- refine_answer from app/steps/memory/refine_answer.py (the prompt text
feeds the oracle `call` and is omitted). -/
def refine_answer (st : QualityState) (call : RefineCallResult) : RefineUpdate :=
  if st.refined_once then {}
  else if !(st.refine_decision.getD default).should_refine then {}
  else
    match call with
    | .exc => { refined_once := some true, answer_before := some st.assistant_text }
    | .ok content =>
      if pyStrip (content.getD "") = "" then
        { refined_once := some true, answer_before := some st.assistant_text }
      else
        { assistant_text := some (pyStrip (content.getD ""))
          refined_once := some true
          answer_before := some st.assistant_text }

/-- should_refine_from_state conditional edge from
app/steps/memory/quality_gate.py. -/
def should_refine_from_state (st : QualityState) : String :=
  if st.refined_once then "validate_sources"
  else if (st.refine_decision.getD default).should_refine then "refine_answer"
  else "validate_sources"

/-- The quality_gate node from app/steps/memory/quality_gate.py: `none` is
the empty update `{}` returned when refined_once is set; otherwise the
refine_decision written into the state. -/
def quality_gate (st : QualityState) : Option RefineDecision :=
  if st.refined_once then none
  else some (decide_refine st.answer_evaluation st.source_validation st.tone_validation)

end RefineStep

namespace Triage

/-- Extracted parameters: the dict returned by _extract_params_from_query
(regex extraction is kept abstract; nodes below take the extraction as an
oracle function producing such a dict). -/
abbrev Params := List (String × String)

/-- Python dict merge `{**a, **b}`: keys of a in order with values overridden
by b, then the keys of b not in a. -/
def pyDictMerge (a b : Params) : Params :=
  a.map (fun kv => (kv.1, (b.lookup kv.1).getD kv.2)) ++
    b.filter (fun kv => (a.lookup kv.1).isNone)

/-- The pending_mcp_intent dict stored in session memory:
`{"law_type": ..., "params": ...}`, keys read back with .get. -/
structure PendingIntent where
  law_type : Option String
  params : Params
deriving DecidableEq, Repr

/-- The mcp_query value: either the raw query text, or the f-string
`f"{law_type} met {merged_params}"` built on the pending-intent path,
kept symbolic instead of rendering the Python dict repr. -/
inductive McpQuery where
  | raw (q : String)
  | pendingDescr (law_type : Option String) (params : Params)
deriving DecidableEq, Repr

/-- The FAQ match payload written by triage_faq into triage["faq_match"]. -/
structure FaqMatchPayload where
  faq_id : String
  category : String
  matched_question : String
  score : ℚ
  related_questions : List String
deriving DecidableEq, Repr

/-- The FAQ suggestion payload written into triage["faq_suggestion"]. -/
structure FaqSuggestionPayload where
  faq_id : String
  category : String
  matched_question : String
  answer : String
  score : ℚ
  related_questions : List String
deriving DecidableEq, Repr

/-- The triage sub-record dict.  Field defaults mirror _default_triage and
the .get defaults used by readers; Option fields are keys that may be
absent. -/
structure TriageRecord where
  route : String := "llm"
  skip_llm : Bool := false
  early_response : Option String := none
  triage_log : List String := []
  faq_match : Option FaqMatchPayload := none
  faq_suggestion : Option FaqSuggestionPayload := none
  faq_sources : List String := []
  mcp_query : Option McpQuery := none
  mcp_law_type : Option String := none
  mcp_params : Option Params := none
  clear_pending_mcp : Bool := false
deriving DecidableEq, Repr

/-- _default_triage from app/steps/memory/_triage.py. -/
def _default_triage : TriageRecord := {}

/-- _triage_already_decided from app/steps/memory/_triage.py:
`(state.get("triage") or {}).get("skip_llm", False)`. -/
def _triage_already_decided (triage : Option TriageRecord) : Bool :=
  (triage.getD {}).skip_llm

/-- The ENABLED toggle at the top of app/steps/memory/triage_relevance.py. -/
def RELEVANCE_ENABLED : Bool := true

/-- triage_relevance from app/steps/memory/triage_relevance.py (placeholder
body: always passes).  `none` is the empty update `{}`. -/
def triage_relevance (message : String) (triage : Option TriageRecord) :
    Option TriageRecord :=
  if !RELEVANCE_ENABLED then none
  else if _triage_already_decided triage then none
  else
    let t := triage.getD _default_triage
    some { t with triage_log := t.triage_log ++ ["triage_relevance: PASS"] }

/-- triage_faq from app/steps/memory/triage_faq.py.  `best` is the oracle
outcome of faq_service.get_best_match(message); `faqConfigured` is whether a
FAQ service was injected.  `none` is the empty update `{}`.  An impossible
(none, "exact") oracle value would raise in Python; it falls into the
no-match branch here and is excluded by get_best_match anyway. -/
def triage_faq (faqConfigured : Bool) (best : Option FaqEngine.FAQMatch × String)
    (message : String) (triage : Option TriageRecord) : Option TriageRecord :=
  if _triage_already_decided triage then none
  else
    let t := triage.getD _default_triage
    if !faqConfigured then
      some { t with triage_log := t.triage_log ++ ["triage_faq: NO SERVICE"] }
    else
      match best with
      | (some m, "exact") =>
        some { t with
                route := "faq"
                skip_llm := true
                early_response := some m.answer
                faq_match := some { faq_id := m.faq_id, category := m.category,
                                    matched_question := m.matched_question,
                                    score := m.score,
                                    related_questions := m.related_questions }
                faq_sources := m.sources
                triage_log := t.triage_log ++ ["triage_faq: EXACT → skip LLM"] }
      | (some m, "suggest") =>
        some { t with
                faq_suggestion := some { faq_id := m.faq_id, category := m.category,
                                         matched_question := m.matched_question,
                                         answer := m.answer, score := m.score,
                                         related_questions := m.related_questions }
                triage_log := t.triage_log ++ ["triage_faq: SUGGEST"] }
      | _ =>
        some { t with triage_log := t.triage_log ++ ["triage_faq: NO MATCH"] }

/-- triage_intent from app/steps/memory/triage_intent.py (placeholder body:
always routes to the LLM).  `none` is the empty update `{}`. -/
def triage_intent (message : String) (triage : Option TriageRecord) :
    Option TriageRecord :=
  if _triage_already_decided triage then none
  else
    let t := triage.getD _default_triage
    some { t with route := "llm", triage_log := t.triage_log ++ ["triage_intent: ROUTE → llm"] }

/-- The required-parameter lists of MCP_LAW_PARAMS in
app/steps/memory/mcp.py (name/optional/question fields are carried
separately where needed). -/
def MCP_LAW_PARAMS_required : List (String × List String) :=
  [("zorgtoeslag", ["inkomen"]),
   ("huurtoeslag", ["inkomen", "huur"]),
   ("aow", ["leeftijd"]),
   ("bijstand", ["inkomen", "vermogen"])]

/-- The question texts of MCP_LAW_PARAMS in app/steps/memory/mcp.py. -/
def MCP_LAW_PARAMS_question : List (String × String) :=
  [("zorgtoeslag",
    "Om te berekenen of je recht hebt op zorgtoeslag, heb ik de volgende gegevens nodig:\n\n**Verplicht:**\n- Wat is je jaarinkomen (bruto)?\n\n**Optioneel:**\n- Heb je een toeslagpartner? (ja/nee)\n- Wat is je leeftijd?\n\nGeef deze gegevens en ik bereken het voor je!"),
   ("huurtoeslag",
    "Om te berekenen of je recht hebt op huurtoeslag, heb ik de volgende gegevens nodig:\n\n**Verplicht:**\n- Wat is je jaarinkomen (bruto)?\n- Wat is je maandelijkse kale huur?\n\n**Optioneel:**\n- Wat is je leeftijd?\n- Hoeveel huisgenoten heb je?\n\nGeef deze gegevens en ik bereken het voor je!"),
   ("aow",
    "Om te berekenen of je recht hebt op AOW, heb ik de volgende gegevens nodig:\n\n**Verplicht:**\n- Wat is je leeftijd?\n\n**Optioneel:**\n- Wat is je woonsituatie? (alleenstaand/samenwonend)\n\nGeef deze gegevens en ik bereken het voor je!"),
   ("bijstand",
    "Om te berekenen of je recht hebt op bijstand, heb ik de volgende gegevens nodig:\n\n**Verplicht:**\n- Wat is je huidige inkomen?\n- Wat is je vermogen (spaargeld, bezittingen)?\n\n**Optioneel:**\n- Wat is je woonsituatie? (alleenstaand/samenwonend/gezin)\n- Wat is je leeftijd?\n\nGeef deze gegevens en ik bereken het voor je!")]

/-- _detect_law_type from app/steps/memory/mcp.py. -/
def _detect_law_type (query : String) : Option String :=
  let query_lower := pyLower query
  if pySubstr "zorgtoeslag" query_lower then some "zorgtoeslag"
  else if pySubstr "huurtoeslag" query_lower then some "huurtoeslag"
  else if pySubstr "aow" query_lower || pySubstr "ouderdom" query_lower then some "aow"
  else if pySubstr "bijstand" query_lower then some "bijstand"
  else none

/-- _has_required_params from app/steps/memory/mcp.py.  A None law_type is a
missing key of MCP_LAW_PARAMS and yields True, like any unknown law type. -/
def _has_required_params (law_type : Option String) (params : Params) : Bool :=
  match law_type with
  | none => true
  | some lt =>
    match MCP_LAW_PARAMS_required.lookup lt with
    | none => true
    | some required => required.all (fun p => (params.lookup p).isSome)

/-- triage_mcp from app/steps/memory/mcp.py.  `extract` is
_extract_params_from_query (regex extraction, oracle); `classify` is the
LLM classification outcome: some true = "JA", some false = any other
answer, none = no LLM configured or a raised exception (both pass
through).  `pending` is session.get("pending_mcp_intent").  `none` is the
empty pass-through update `{}`. -/
def triage_mcp (extract : String → Params) (classify : Option Bool)
    (message : String) (triage : Option TriageRecord)
    (pending : Option PendingIntent) : Option TriageRecord :=
  let t := triage.getD {}
  let stripped := pyStrip message
  match pending with
  | some pending_mcp =>
    let law_type := pending_mcp.law_type
    let merged_params := pyDictMerge pending_mcp.params (extract stripped)
    if _has_required_params law_type merged_params then
      some { t with
              route := "mcp"
              skip_llm := true
              mcp_query := some (.pendingDescr law_type merged_params)
              mcp_params := some merged_params
              mcp_law_type := law_type
              clear_pending_mcp := true }
    else
      some { t with
              route := "mcp_gather_params"
              skip_llm := true
              mcp_law_type := law_type
              mcp_params := some merged_params }
  | none =>
    if pyStartsWith (pyLower stripped) "mcp:" then
      let query := pyStrip (pyDropChars 4 stripped)
      let law_type := _detect_law_type query
      let params := extract query
      if law_type.isSome && !_has_required_params law_type params then
        some { t with
                route := "mcp_gather_params"
                skip_llm := true
                mcp_law_type := law_type
                mcp_params := some params }
      else if law_type.isSome then
        some { t with
                route := "mcp"
                skip_llm := true
                mcp_query := some (.raw query)
                mcp_law_type := law_type
                mcp_params := some params }
      else
        some { t with route := "mcp", skip_llm := true, mcp_query := some (.raw query) }
    else
      match classify with
      | some true =>
        let law_type := _detect_law_type stripped
        let params := extract stripped
        if law_type.isSome && !_has_required_params law_type params then
          some { t with
                  route := "mcp_gather_params"
                  skip_llm := true
                  mcp_law_type := law_type
                  mcp_params := some params }
        else if law_type.isSome then
          some { t with
                  route := "mcp"
                  skip_llm := true
                  mcp_query := some (.raw stripped)
                  mcp_law_type := law_type
                  mcp_params := some params }
        else
          some { t with route := "mcp", skip_llm := true, mcp_query := some (.raw stripped) }
      | _ => none

end Triage

namespace SessionModel

/-- The user_intent Literal of QAIndexEntry in
app/features/memory/models.py. -/
inductive UserIntent where
  | question
  | assumption
  | verified
  | preference
  | correction
deriving DecidableEq, Repr

/-- Serialisation of a user_intent value in model_dump output. -/
def dumpUserIntent : UserIntent → String
  | .question => "question"
  | .assumption => "assumption"
  | .verified => "verified"
  | .preference => "preference"
  | .correction => "correction"

/-- Validation of a user_intent string against the Literal, as pydantic does
when re-reading a dumped session; anything else is rejected. -/
def parseUserIntent : String → Option UserIntent
  | "question" => some .question
  | "assumption" => some .assumption
  | "verified" => some .verified
  | "preference" => some .preference
  | "correction" => some .correction
  | _ => none

/-- QAIndexEntry from app/features/memory/models.py. -/
structure QAIndexEntry where
  exchange_id : String
  question_summary : String
  answer_summary : String
  topics : List String
  source_ids : List String
  user_intent : UserIntent
  verified : Bool
  timestamp : String
deriving DecidableEq, Repr

/-- A full_answers value `{text, sources}`; source dicts are opaque
tokens. -/
structure FullAnswer where
  text : String
  sources : List String
deriving DecidableEq, Repr

/-- The validated SessionMemory model from app/features/memory/models.py.
pydantic ignores dict keys that are not declared fields, so this structure
has exactly the declared fields and nothing else. -/
structure SessionMemory where
  session_id : String
  summary : String := ""
  qa_index : List QAIndexEntry := []
  full_answers : List (String × FullAnswer) := []
  recent_messages : List ChatMsg := []
  created_at : String := ""
  updated_at : String := ""
  message_count : Nat := 0
deriving DecidableEq, Repr

/-- A dumped qa_index entry: user_intent serialised to its string. -/
structure QAEntryDump where
  exchange_id : String
  question_summary : String
  answer_summary : String
  topics : List String
  source_ids : List String
  user_intent : String
  verified : Bool
  timestamp : String
deriving DecidableEq, Repr

/-- A full_answers value in the stored JSON: the current {text, sources}
shape or the legacy bare string migrated by _migrate_legacy_full_answers. -/
inductive FullAnswerDump where
  | obj (text : String) (sources : List String)
  | legacy (s : String)
deriving DecidableEq, Repr

/-- The JSON object written to `<sessions_dir>/<id>.json`. -/
structure SessionDump where
  session_id : String
  summary : String
  qa_index : List QAEntryDump
  full_answers : List (String × FullAnswerDump)
  recent_messages : List ChatMsg
  created_at : String
  updated_at : String
  message_count : Nat
deriving DecidableEq, Repr

/-- model_dump of a qa_index entry. -/
def dumpQAEntry (e : QAIndexEntry) : QAEntryDump :=
  { exchange_id := e.exchange_id
    question_summary := e.question_summary
    answer_summary := e.answer_summary
    topics := e.topics
    source_ids := e.source_ids
    user_intent := dumpUserIntent e.user_intent
    verified := e.verified
    timestamp := e.timestamp }

/-- Re-validation of a dumped qa_index entry (pydantic re-checks the
user_intent Literal). -/
def parseQAEntry (d : QAEntryDump) : Option QAIndexEntry :=
  (parseUserIntent d.user_intent).map fun ui =>
    { exchange_id := d.exchange_id
      question_summary := d.question_summary
      answer_summary := d.answer_summary
      topics := d.topics
      source_ids := d.source_ids
      user_intent := ui
      verified := d.verified
      timestamp := d.timestamp }

/-- The _migrate_legacy_full_answers validator: a bare string value becomes
`{text, sources := []}`. -/
def migrateFullAnswer : FullAnswerDump → FullAnswer
  | .obj text sources => { text := text, sources := sources }
  | .legacy s => { text := s, sources := [] }

/-- SessionMemory.model_dump serialised to the on-disk JSON. -/
def dumpSession (s : SessionMemory) : SessionDump :=
  { session_id := s.session_id
    summary := s.summary
    qa_index := s.qa_index.map dumpQAEntry
    full_answers := s.full_answers.map (fun kv => (kv.1, .obj kv.2.text kv.2.sources))
    recent_messages := s.recent_messages
    created_at := s.created_at
    updated_at := s.updated_at
    message_count := s.message_count }

/-- `SessionMemory(**data)` on a loaded JSON object: pydantic validation of
the qa_index entries plus the legacy full_answers migration; `none` models
the exception branch of SessionStore.load. -/
def parseSession (d : SessionDump) : Option SessionMemory :=
  (d.qa_index.mapM parseQAEntry).map fun qa =>
    { session_id := d.session_id
      summary := d.summary
      qa_index := qa
      full_answers := d.full_answers.map (fun kv => (kv.1, migrateFullAnswer kv.2))
      recent_messages := d.recent_messages
      created_at := d.created_at
      updated_at := d.updated_at
      message_count := d.message_count }

/-- os.path.basename on a POSIX path: the text after the last separator. -/
def basenameAux : List Char → List Char → List Char
  | [], acc => acc
  | c :: rest, acc =>
    if c = '/' then basenameAux rest [] else basenameAux rest (acc ++ [c])

/-- os.path.basename, the sanitisation step of SessionStore._path. -/
def pyBasename (s : String) : String :=
  ⟨basenameAux s.data []⟩

/-- The file name built by SessionStore._path: basename(session_id) +
".json". -/
def sessionFileName (session_id : String) : String :=
  pyBasename session_id ++ ".json"

/-- SessionStore._path: os.path.join(sessions_dir, file name), with paths
as component lists; the joined name contains no separator. -/
def sessionPath (sessions_dir : List String) (session_id : String) : List String :=
  sessions_dir ++ [sessionFileName session_id]

/-- The file-backed store of app/features/memory/session_store.py: the
configured directory and the files inside the filesystem, keyed by
component path. -/
structure SessionStore where
  sessions_dir : List String
  files : List (List String × SessionDump)

/-- SessionStore.save: set updated_at, then write the model dump to
_path(session.session_id), replacing any previous file.  Returns the store
and the mutated session object (the Python method mutates its argument). -/
def SessionStore.save (store : SessionStore) (session : SessionMemory) (now : String) :
    SessionStore × SessionMemory :=
  let session := { session with updated_at := now }
  let path := sessionPath store.sessions_dir session.session_id
  ({ store with
      files := (path, dumpSession session) :: store.files.filter (fun kv => kv.1 ≠ path) },
   session)

/-- SessionStore.load: read _path(session_id) and validate; absent file or
validation failure gives None. -/
def SessionStore.load (store : SessionStore) (session_id : String) : Option SessionMemory :=
  (store.files.lookup (sessionPath store.sessions_dir session_id)).bind parseSession

/-- SessionStore.exists: os.path.exists on _path(session_id). -/
def SessionStore.existsFile (store : SessionStore) (session_id : String) : Bool :=
  (store.files.lookup (sessionPath store.sessions_dir session_id)).isSome

/-- SessionStore.delete: remove _path(session_id), returning whether the
file existed. -/
def SessionStore.delete (store : SessionStore) (session_id : String) :
    Bool × SessionStore :=
  if (store.files.lookup (sessionPath store.sessions_dir session_id)).isSome then
    (true, { store with
              files := store.files.filter
                (fun kv => kv.1 ≠ sessionPath store.sessions_dir session_id) })
  else
    (false, store)

/-- The session dict held in ChatState: SessionMemory.model_dump output,
possibly extended with the pending_mcp_intent key by a session_update merge
(gather_mcp_params path). -/
structure SessionDict where
  session_id : String
  summary : String := ""
  qa_index : List QAIndexEntry := []
  full_answers : List (String × FullAnswer) := []
  recent_messages : List ChatMsg := []
  created_at : String := ""
  updated_at : String := ""
  message_count : Nat := 0
  pending_mcp_intent : Option Triage.PendingIntent := none
deriving DecidableEq, Repr

/-- `SessionMemory(**session_data)`: pydantic keeps the declared fields and
silently ignores the extra pending_mcp_intent key (default config,
extra = ignore). -/
def sessionMemoryOfDict (d : SessionDict) : SessionMemory :=
  { session_id := d.session_id
    summary := d.summary
    qa_index := d.qa_index
    full_answers := d.full_answers
    recent_messages := d.recent_messages
    created_at := d.created_at
    updated_at := d.updated_at
    message_count := d.message_count }

/-- SessionMemory.model_dump back into a state dict: only declared fields,
so no pending_mcp_intent key. -/
def dictOfSessionMemory (s : SessionMemory) : SessionDict :=
  { session_id := s.session_id
    summary := s.summary
    qa_index := s.qa_index
    full_answers := s.full_answers
    recent_messages := s.recent_messages
    created_at := s.created_at
    updated_at := s.updated_at
    message_count := s.message_count
    pending_mcp_intent := none }

/-- The save_session node from app/steps/memory/session.py: merge
session_update (the gather_mcp_params pending intent) into the session
dict, honour clear_pending_mcp, validate through SessionMemory, persist,
and put the re-dumped session back into the state. -/
def save_session (store : SessionStore) (now : String) (session : SessionDict)
    (session_update : Option Triage.PendingIntent) (clear_pending_mcp : Bool) :
    SessionStore × SessionDict :=
  let session_data :=
    match session_update with
    | some u => { session with pending_mcp_intent := some u }
    | none => session
  let session_data :=
    if clear_pending_mcp then { session_data with pending_mcp_intent := none }
    else session_data
  let validated := sessionMemoryOfDict session_data
  let (store, saved) := SessionStore.save store validated now
  (store, dictOfSessionMemory saved)

end SessionModel

namespace Triage

/-- The state update returned by the gather_mcp_params node. -/
structure GatherUpdate where
  assistant_text : String
  exchange_id : String
  unique_sources : List String := []
  source_ids : List String := []
  session_update : Option PendingIntent := none
deriving DecidableEq, Repr

/-- gather_mcp_params from app/steps/memory/mcp.py: emit the clarifying
question for the detected law type and attach the pending intent as a
session_update; the fresh uuid exchange id is an oracle argument. -/
def gather_mcp_params (exchange_id : String) (triage : Option TriageRecord) :
    GatherUpdate :=
  let t := triage.getD {}
  let law_type := t.mcp_law_type
  let current_params := t.mcp_params.getD []
  match law_type with
  | none =>
    { assistant_text := "Ik kan je helpen met toeslagen berekenen. Welke toeslag wil je checken? (zorgtoeslag, huurtoeslag, AOW, of bijstand)"
      exchange_id := exchange_id }
  | some lt =>
    match MCP_LAW_PARAMS_question.lookup lt with
    | none =>
      { assistant_text := "Ik kan je helpen met toeslagen berekenen. Welke toeslag wil je checken? (zorgtoeslag, huurtoeslag, AOW, of bijstand)"
        exchange_id := exchange_id }
    | some question =>
      { assistant_text := question
        exchange_id := exchange_id
        session_update := some { law_type := some lt, params := current_params } }

end Triage

namespace FaqEngine

theorem matchLoop_length_le (svc : FAQService) :
    ∀ (res : List (ℚ × Int)) (seen : List String) (ms : List FAQMatch),
      matchLoop svc res seen = some ms → ms.length ≤ res.length := by
  intro res
  induction res with
  | nil =>
    intro seen ms h
    simp only [matchLoop, Option.some.injEq] at h
    subst h
    simp
  | cons row rest ih =>
    intro seen ms h
    obtain ⟨score, idx⟩ := row
    rw [matchLoop] at h
    split at h
    · exact le_trans (ih _ _ h) (Nat.le_succ _)
    · split at h
      · exact absurd h (by simp)
      · split at h
        · split at h
          · exact le_trans (ih _ _ h) (Nat.le_succ _)
          · split at h
            · exact absurd h (by simp)
            · rename_i ms' hrec
              obtain ⟨rfl⟩ := Option.some.inj h
              simpa using ih _ _ hrec
        · exact absurd h (by simp)

theorem matchLoop_scores_sublist (svc : FAQService) :
    ∀ (res : List (ℚ × Int)) (seen : List String) (ms : List FAQMatch),
      matchLoop svc res seen = some ms →
      List.Sublist (ms.map FAQMatch.score) (res.map Prod.fst) := by
  intro res
  induction res with
  | nil =>
    intro seen ms h
    simp only [matchLoop, Option.some.injEq] at h
    subst h
    simp
  | cons row rest ih =>
    intro seen ms h
    obtain ⟨score, idx⟩ := row
    rw [matchLoop] at h
    split at h
    · exact (ih _ _ h).trans ((List.sublist_cons_self _ _))
    · split at h
      · exact absurd h (by simp)
      · split at h
        · split at h
          · exact (ih _ _ h).trans ((List.sublist_cons_self _ _))
          · split at h
            · exact absurd h (by simp)
            · rename_i ms' hrec
              obtain ⟨rfl⟩ := Option.some.inj h
              simpa using List.Sublist.cons₂ score (ih _ _ hrec)
        · exact absurd h (by simp)

theorem matchLoop_ids_nodup (svc : FAQService) :
    ∀ (res : List (ℚ × Int)) (seen : List String) (ms : List FAQMatch),
      matchLoop svc res seen = some ms →
      (∀ m ∈ ms, m.faq_id ∉ seen) ∧ (ms.map FAQMatch.faq_id).Nodup := by
  intro res
  induction res with
  | nil =>
    intro seen ms h
    simp only [matchLoop, Option.some.injEq] at h
    subst h
    simp
  | cons row rest ih =>
    intro seen ms h
    obtain ⟨score, idx⟩ := row
    rw [matchLoop] at h
    split at h
    · exact ih _ _ h
    · split at h
      · exact absurd h (by simp)
      · split at h
        · split at h
          · exact ih _ _ h
          · split at h
            · exact absurd h (by simp)
            · rename_i hseen hx ms' hrec
              obtain ⟨rfl⟩ := Option.some.inj h
              obtain ⟨hnotin, hnodup⟩ := ih _ _ hrec
              constructor
              · intro m hm hmem
                rcases List.mem_cons.mp hm with rfl | hm'
                · exact hseen hmem
                · exact hnotin m hm' (List.mem_cons_of_mem _ hmem)
              · refine List.nodup_cons.mpr ⟨?_, hnodup⟩
                intro hcontra
                obtain ⟨m, hm, hid⟩ := List.mem_map.mp hcontra
                exact hnotin m hm (hid ▸ List.mem_cons_self _ _)
        · exact absurd h (by simp)

theorem matchLoop_keeps_highest (svc : FAQService) :
    ∀ (res : List (ℚ × Int)) (seen : List String) (ms : List FAQMatch),
      res.Pairwise (fun a b => a.1 ≥ b.1) →
      matchLoop svc res seen = some ms →
      ∀ m ∈ ms, ∀ p ∈ res, rowFaqId svc p.2 = some m.faq_id → m.score ≥ p.1 := by
  intro res
  induction res with
  | nil =>
    intro seen ms _ _ m _ p hp
    simp at hp
  | cons row rest ih =>
    intro seen ms hsorted h
    obtain ⟨s0, i0⟩ := row
    obtain ⟨hhead, htail⟩ := List.pairwise_cons.mp hsorted
    by_cases hinv : (i0 < 0 ∨ (svc.questions.length : Int) ≤ i0)
    · rw [matchLoop, if_pos hinv] at h
      intro m hm p hp hid
      rcases List.mem_cons.mp hp with rfl | hp'
      · unfold rowFaqId at hid
        rw [if_pos hinv] at hid
        exact absurd hid (by simp)
      · exact ih seen ms htail h m hm p hp' hid
    · rw [matchLoop, if_neg hinv] at h
      cases hq2f : svc.question_to_faq[i0.toNat]? with
      | none =>
        rw [hq2f] at h
        exact absurd h (by simp)
      | some faq_idx =>
        rw [hq2f] at h
        dsimp only at h
        cases hfaq : svc.faqs[faq_idx]? with
        | none =>
          rw [hfaq] at h
          cases hq : svc.questions[i0.toNat]? with
          | none =>
            rw [hq] at h
            exact absurd h (by simp)
          | some q =>
            rw [hq] at h
            exact absurd h (by simp)
        | some faq =>
          rw [hfaq] at h
          cases hq : svc.questions[i0.toNat]? with
          | none =>
            rw [hq] at h
            exact absurd h (by simp)
          | some q =>
            rw [hq] at h
            dsimp only at h
            have hrowid : rowFaqId svc i0 = some (faqIdOf faq_idx faq) := by
              unfold rowFaqId
              rw [if_neg hinv, hq2f]
              simp [hfaq]
            by_cases hseen : faqIdOf faq_idx faq ∈ seen
            · rw [if_pos hseen] at h
              intro m hm p hp hid
              rcases List.mem_cons.mp hp with rfl | hp'
              · have hids := (matchLoop_ids_nodup svc rest seen ms h).1 m hm
                rw [hrowid] at hid
                have hid2 := Option.some.inj hid
                exact absurd (hid2 ▸ hseen) hids
              · exact ih seen ms htail h m hm p hp' hid
            · rw [if_neg hseen] at h
              cases hrec : matchLoop svc rest (faqIdOf faq_idx faq :: seen) with
              | none =>
                rw [hrec] at h
                exact absurd h (by simp)
              | some ms' =>
                rw [hrec] at h
                obtain ⟨rfl⟩ := Option.some.inj h
                intro m hm p hp hid
                rcases List.mem_cons.mp hm with rfl | hm'
                · rcases List.mem_cons.mp hp with rfl | hp'
                  · exact le_refl _
                  · exact hhead p hp'
                · rcases List.mem_cons.mp hp with rfl | hp'
                  · have hids := (matchLoop_ids_nodup svc rest _ ms' hrec).1 m hm'
                    rw [hrowid] at hid
                    have hid2 := Option.some.inj hid
                    exact absurd (List.mem_cons.mpr (Or.inl hid2.symm)) hids
                  · exact ih _ ms' htail hrec m hm' p hp' hid

/-- C2: FAQService.match(query, k) returns at most k results, sorted by
descending score, no FAQ id appears in more than one result, and the kept
occurrence of each FAQ id is the highest-ranked one: its score is at least
the score of every search row resolving to the same FAQ id.
`searchRes` is the FAISS top-k output for the query: exactly k rows,
ordered by descending score. -/
theorem faq_match_bounded_sorted_dedup (svc : FAQService) (k : Nat)
    (searchRes : List (ℚ × Int))
    (hlen : searchRes.length = k)
    (hsorted : searchRes.Pairwise (fun a b => a.1 ≥ b.1)) :
    (svc.matchFn searchRes).length ≤ k ∧
    (svc.matchFn searchRes).Pairwise (fun a b => a.score ≥ b.score) ∧
    ((svc.matchFn searchRes).map FAQMatch.faq_id).Nodup ∧
    (∀ m ∈ svc.matchFn searchRes, ∀ p ∈ searchRes,
      rowFaqId svc p.2 = some m.faq_id → m.score ≥ p.1) := by
  unfold FAQService.matchFn
  cases h : matchLoop svc searchRes [] with
  | none => simp
  | some ms =>
    simp only [Option.getD_some]
    refine ⟨hlen ▸ matchLoop_length_le svc _ _ _ h, ?_,
      (matchLoop_ids_nodup svc _ _ _ h).2,
      matchLoop_keeps_highest svc _ _ _ hsorted h⟩
    have hsub := matchLoop_scores_sublist svc _ _ _ h
    have hps : (searchRes.map Prod.fst).Pairwise (fun a b => a ≥ b) :=
      List.pairwise_map.mpr hsorted
    have := hps.sublist hsub
    exact List.pairwise_map.mp this

/-- Witness for C2 at a concrete service and search result. -/
theorem faq_match_bounded_sorted_dedup_witness :
    (let svc : FAQService :=
      { faqs := [{ faqId := some "faq-a", category := "c", answer := "A",
                   questions := ["q1", "q2"], sources := [] },
                 { faqId := none, category := "c", answer := "B",
                   questions := ["q3"], sources := [] }]
        questions := ["q1", "q2", "q3"]
        question_to_faq := [0, 0, 1] }
     (svc.matchFn [((9 : ℚ), 0), ((8 : ℚ), 1), ((5 : ℚ), 2)]).length ≤ 3 ∧
     (svc.matchFn [((9 : ℚ), 0), ((8 : ℚ), 1), ((5 : ℚ), 2)]).Pairwise
       (fun a b => a.score ≥ b.score) ∧
     ((svc.matchFn [((9 : ℚ), 0), ((8 : ℚ), 1), ((5 : ℚ), 2)]).map
       FAQMatch.faq_id).Nodup) :=
  ⟨(faq_match_bounded_sorted_dedup _ 3 _ (by decide) (by norm_num [List.pairwise_cons])).1,
   (faq_match_bounded_sorted_dedup _ 3 _ (by decide) (by norm_num [List.pairwise_cons])).2.1,
   (faq_match_bounded_sorted_dedup _ 3 _ (by decide) (by norm_num [List.pairwise_cons])).2.2.1⟩

/-- C1: get_best_match returns decision exact iff the best score is at least
0.85, suggest iff the best score is in [0.70, 0.85), and none otherwise,
including when match returns no results. -/
theorem faq_get_best_match_decision (svc : FAQService) (searchRes : List (ℚ × Int)) :
    ((svc.get_best_match searchRes).2 = "exact" ↔
      ∃ m, (svc.matchFn searchRes).head? = some m ∧ (0.85 : ℚ) ≤ m.score) ∧
    ((svc.get_best_match searchRes).2 = "suggest" ↔
      ∃ m, (svc.matchFn searchRes).head? = some m ∧
        (0.70 : ℚ) ≤ m.score ∧ m.score < (0.85 : ℚ)) ∧
    ((svc.get_best_match searchRes).2 = "none" ↔
      svc.matchFn searchRes = [] ∨
      ∃ m, (svc.matchFn searchRes).head? = some m ∧ m.score < (0.70 : ℚ)) := by
  unfold FAQService.get_best_match
  cases h : svc.matchFn searchRes with
  | nil => simp
  | cons best rest =>
    have h85 : HIGH_CONFIDENCE_THRESHOLD = (0.85 : ℚ) := rfl
    have h70 : SUGGEST_THRESHOLD = (0.70 : ℚ) := rfl
    simp only [List.head?_cons, h85, h70]
    split_ifs with h1 h2
    · refine ⟨iff_of_true rfl ⟨best, rfl, h1⟩, ?_, ?_⟩
      · refine iff_of_false (show ("exact" : String) ≠ "suggest" by decide) ?_
        rintro ⟨m, hm, _, hlt⟩
        obtain ⟨rfl⟩ := Option.some.inj hm
        exact absurd h1 (not_le.mpr hlt)
      · refine iff_of_false (show ("exact" : String) ≠ "none" by decide) ?_
        rintro (hnil | ⟨m, hm, hlt⟩)
        · exact absurd hnil (by simp)
        · obtain ⟨rfl⟩ := Option.some.inj hm
          exact absurd h1 (not_le.mpr (lt_of_lt_of_le hlt (by norm_num)))
    · refine ⟨?_, iff_of_true rfl ⟨best, rfl, h2, not_le.mp h1⟩, ?_⟩
      · refine iff_of_false (show ("suggest" : String) ≠ "exact" by decide) ?_
        rintro ⟨m, hm, hge⟩
        obtain ⟨rfl⟩ := Option.some.inj hm
        exact absurd hge h1
      · refine iff_of_false (show ("suggest" : String) ≠ "none" by decide) ?_
        rintro (hnil | ⟨m, hm, hlt⟩)
        · exact absurd hnil (by simp)
        · obtain ⟨rfl⟩ := Option.some.inj hm
          exact absurd h2 (not_le.mpr hlt)
    · refine ⟨?_, ?_, iff_of_true rfl (Or.inr ⟨best, rfl, not_le.mp h2⟩)⟩
      · refine iff_of_false (show ("none" : String) ≠ "exact" by decide) ?_
        rintro ⟨m, hm, hge⟩
        obtain ⟨rfl⟩ := Option.some.inj hm
        exact absurd (le_trans (by norm_num) hge) h2
      · refine iff_of_false (show ("none" : String) ≠ "suggest" by decide) ?_
        rintro ⟨m, hm, hge, _⟩
        obtain ⟨rfl⟩ := Option.some.inj hm
        exact absurd hge h2

end FaqEngine

namespace ReasoningLoop

theorem should_continue_execute_iff (b : Bool) (r : Nat) :
    should_continue b r = "execute_tools" ↔ b = true ∧ r < MAX_TOOL_ROUNDS := by
  unfold should_continue
  split
  · rename_i hc
    simp only [Bool.and_eq_true, decide_eq_true_eq] at hc
    simpa using hc
  · rename_i hc
    simp only [Bool.and_eq_true, decide_eq_true_eq] at hc
    constructor
    · intro h; exact absurd h (by decide)
    · intro h; exact absurd h hc

theorem loopLLMCalls_le (oracle : Nat → Bool) :
    ∀ (d i tool_rounds : Nat), MAX_TOOL_ROUNDS - tool_rounds ≤ d →
      loopLLMCalls oracle i tool_rounds ≤ d + 1 := by
  intro d
  induction d with
  | zero =>
    intro i r hr
    rw [loopLLMCalls]
    split
    · rename_i h
      have hc := (should_continue_execute_iff _ _).mp h
      simp only [call_llm_tool_rounds] at hc
      omega
    · omega
  | succ d ih =>
    intro i r hr
    rw [loopLLMCalls]
    split
    · rename_i h
      have hc := (should_continue_execute_iff _ _).mp h
      simp only [call_llm_tool_rounds] at hc
      have := ih (i + 1) (call_llm_tool_rounds r) (by simp only [call_llm_tool_rounds]; omega)
      omega
    · omega

/-- C3: in a single turn the reasoning loop invokes the model at most
MAX_TOOL_ROUNDS + 1 = 4 times, for every pattern of tool-call requests:
the counter starts at 0 in build_prompt, call_llm increments it by one, and
the conditional edge re-enters execute_tools exactly when the last message
requests tool calls and tool_rounds < MAX_TOOL_ROUNDS. -/
theorem reasoning_loop_llm_call_bound (oracle : Nat → Bool) :
    build_prompt_tool_rounds = 0 ∧
    (∀ r, call_llm_tool_rounds r = r + 1) ∧
    (∀ b r, should_continue b r = "execute_tools" ↔ b = true ∧ r < MAX_TOOL_ROUNDS) ∧
    turnLLMCalls oracle ≤ MAX_TOOL_ROUNDS + 1 := by
  refine ⟨rfl, fun r => rfl, should_continue_execute_iff, ?_⟩
  exact loopLLMCalls_le oracle MAX_TOOL_ROUNDS 0 build_prompt_tool_rounds (by decide)

end ReasoningLoop

namespace MemoryUpdate

theorem updateRecentMessages_invariant (recent : List ChatMsg)
    (message assistant_text : String)
    (hlen : recent.length ≤ 10)
    (hroles : ∀ m ∈ recent, m.role = "assistant" → pyNonBlank m.content = true) :
    (updateRecentMessages recent message assistant_text).length ≤ 10 ∧
    ∀ m ∈ updateRecentMessages recent message assistant_text,
      m.role = "assistant" → pyNonBlank m.content = true := by
  unfold updateRecentMessages
  split
  · rename_i hblank
    constructor
    · simp only [pyLastN, List.length_drop, List.length_append]
      omega
    · intro m hm hrole
      have hm' : m ∈ recent ++ [⟨"user", message⟩, ⟨"assistant", assistant_text⟩] :=
        List.mem_of_mem_drop hm
      rcases List.mem_append.mp hm' with hold | hnew
      · exact hroles m hold hrole
      · simp only [List.mem_cons, List.not_mem_nil, or_false] at hnew
        rcases hnew with h1 | h1
        · rw [h1] at hrole
          exact absurd hrole (show ("user" : String) ≠ "assistant" by decide)
        · rw [h1]; exact hblank
  · exact ⟨hlen, hroles⟩

theorem runRecentWindow_invariant (turns : List (String × String)) :
    (runRecentWindow turns).length ≤ 10 ∧
    ∀ m ∈ runRecentWindow turns, m.role = "assistant" → pyNonBlank m.content = true := by
  unfold runRecentWindow
  suffices h : ∀ acc : List ChatMsg, acc.length ≤ 10 →
      (∀ m ∈ acc, m.role = "assistant" → pyNonBlank m.content = true) →
      ((turns.foldl (fun recent t => updateRecentMessages recent t.1 t.2) acc).length ≤ 10 ∧
        ∀ m ∈ turns.foldl (fun recent t => updateRecentMessages recent t.1 t.2) acc,
          m.role = "assistant" → pyNonBlank m.content = true) by
    exact h [] (by simp) (by simp)
  induction turns with
  | nil =>
    intro acc h1 h2
    simpa using ⟨h1, h2⟩
  | cons t ts ih =>
    intro acc h1 h2
    simp only [List.foldl_cons]
    obtain ⟨h1', h2'⟩ := updateRecentMessages_invariant acc t.1 t.2 h1 h2
    exact ih _ h1' h2'

/-- C4: after any number of turns starting from a fresh session, the
recent-messages window has at most 10 entries and no stored entry has role
assistant with blank content; a turn whose assistant text is blank leaves
the window unchanged. -/
theorem recent_window_invariant (turns : List (String × String)) :
    (runRecentWindow turns).length ≤ 10 ∧
    (∀ m ∈ runRecentWindow turns, m.role = "assistant" → pyNonBlank m.content = true) ∧
    (∀ (recent : List ChatMsg) (message assistant_text : String),
      pyNonBlank assistant_text = false →
      updateRecentMessages recent message assistant_text = recent) := by
  refine ⟨?_, ?_, ?_⟩
  · exact (runRecentWindow_invariant turns).1
  · exact (runRecentWindow_invariant turns).2
  · intro recent message assistant_text hblank
    unfold updateRecentMessages
    simp [hblank]

end MemoryUpdate

/-- Witness for C4 at one concrete turn and one blank-assistant update. -/
theorem recent_window_invariant_witness :
    (MemoryUpdate.runRecentWindow [("vraag", "antwoord")]).length ≤ 10 ∧
    MemoryUpdate.updateRecentMessages [] "vraag" " " = [] :=
  ⟨(MemoryUpdate.recent_window_invariant [("vraag", "antwoord")]).1,
   (MemoryUpdate.recent_window_invariant []).2.2 [] "vraag" " " (by decide)⟩

namespace RefinePolicy

theorem scoreBelow_eq_true_iff (v : Option ℚ) (t : ℚ) :
    scoreBelow v t = true ↔ ∃ q, v = some q ∧ q < t := by
  cases v <;> simp [scoreBelow]

/-- C5: decide_refine returns should_refine = true iff at least one deficit
exists: a present numeric score below its threshold (relevance 0.6,
groundedness 0.6, completeness 0.5, tone 0.6, policy_compliance 0.6), an
explicit grounded = false flag, or an explicit appropriate = false flag. -/
theorem decide_refine_should_refine_iff (ev : Evaluation) (sv : SourceValidation)
    (tv : ToneValidation) :
    (decide_refine (some ev) (some sv) (some tv)).should_refine = true ↔
      (∃ q, ev.relevance = some q ∧ q < (0.6 : ℚ)) ∨
      (∃ q, ev.groundedness = some q ∧ q < (0.6 : ℚ)) ∨
      sv.grounded = some false ∨
      (∃ q, ev.completeness = some q ∧ q < (0.5 : ℚ)) ∨
      (∃ q, ev.tone = some q ∧ q < (0.6 : ℚ)) ∨
      tv.appropriate = some false ∨
      (∃ q, ev.policy_compliance = some q ∧ q < (0.6 : ℚ)) := by
  simp only [decide_refine, Option.getD_some, decide_eq_true_eq]
  split_ifs <;> simp_all [scoreBelow_eq_true_iff]

end RefinePolicy

namespace RefineStep

/-- C6: the refine step runs at most once per turn.  Once refined_once is
set, the refine node, the quality-gate routing, and the quality-gate node
all no-op; an attempt (not yet refined, should_refine true) always sets
refined_once, including on exception or empty text; and in those failure
cases the draft answer is left unchanged. -/
theorem refine_step_single_attempt (st : QualityState) (call : RefineCallResult) :
    (st.refined_once = true →
      refine_answer st call = {} ∧
      should_refine_from_state st = "validate_sources" ∧
      quality_gate st = none) ∧
    (st.refined_once = false →
      (st.refine_decision.getD default).should_refine = true →
      (refine_answer st call).refined_once = some true) ∧
    ((call = .exc ∨ ∃ c, call = .ok c ∧ pyStrip (c.getD "") = "") →
      (refine_answer st call).assistant_text = none) := by
  refine ⟨?_, ?_, ?_⟩
  · intro h
    refine ⟨?_, ?_, ?_⟩
    · unfold refine_answer
      rw [if_pos h]
    · unfold should_refine_from_state
      rw [if_pos h]
    · unfold quality_gate
      rw [if_pos h]
  · intro h1 h2
    unfold refine_answer
    rw [if_neg (by simp [h1]), if_neg (by simp [h2])]
    cases call with
    | exc => rfl
    | ok content =>
      dsimp only
      by_cases hempty : pyStrip (content.getD "") = ""
      · rw [if_pos hempty]
      · rw [if_neg hempty]
  · intro hfail
    unfold refine_answer
    split
    · rfl
    · split
      · rfl
      · rcases hfail with rfl | ⟨c, rfl, hc⟩
        · rfl
        · dsimp only
          rw [if_pos hc]

end RefineStep

/-- Witness for C6 at a concrete state that attempts a refinement whose LLM
call raises. -/
theorem refine_step_single_attempt_witness :
    (RefineStep.refine_answer
      { refined_once := false
        refine_decision := some { should_refine := true
                                  reasons := ["Low relevance to the user question"] }
        message := "vraag"
        assistant_text := "concept"
        answer_evaluation := none
        source_validation := none
        tone_validation := none } .exc).refined_once = some true ∧
    (RefineStep.refine_answer
      { refined_once := false
        refine_decision := some { should_refine := true
                                  reasons := ["Low relevance to the user question"] }
        message := "vraag"
        assistant_text := "concept"
        answer_evaluation := none
        source_validation := none
        tone_validation := none } .exc).assistant_text = none :=
  ⟨(RefineStep.refine_step_single_attempt _ .exc).2.1 rfl rfl,
   (RefineStep.refine_step_single_attempt _ .exc).2.2 (Or.inl rfl)⟩

/-- C7 counterexample: triage_mcp does not test the skip_llm flag; on an
mcp-prefixed message it overwrites the route of a triage record already
decided by an earlier check (here an FAQ exact match). -/
theorem triage_mcp_overwrites_decided_route :
    Triage._triage_already_decided
      (some { route := "faq", skip_llm := true,
              early_response := some "Het FAQ antwoord." }) = true ∧
    ((Triage.triage_mcp (fun _ => []) none "mcp: welke wetten zijn er"
        (some { route := "faq", skip_llm := true,
                early_response := some "Het FAQ antwoord." })
        none).map Triage.TriageRecord.route) = some "mcp" := by
  exact ⟨rfl, by decide⟩

/-- C7 (amended): once skip_llm is set, the relevance, FAQ, and final intent
classification checks return a no-op update and so never overwrite route or
early_response; the intent/MCP detection check is the exception and does not
test the flag. -/
theorem triage_checks_noop_when_decided
    (message : String) (triage : Option Triage.TriageRecord)
    (faqConfigured : Bool) (best : Option FaqEngine.FAQMatch × String)
    (h : Triage._triage_already_decided triage = true) :
    Triage.triage_relevance message triage = none ∧
    Triage.triage_faq faqConfigured best message triage = none ∧
    Triage.triage_intent message triage = none := by
  refine ⟨?_, ?_, ?_⟩
  · unfold Triage.triage_relevance
    rw [if_neg (by simp [Triage.RELEVANCE_ENABLED]), if_pos h]
  · unfold Triage.triage_faq
    rw [if_pos h]
  · unfold Triage.triage_intent
    rw [if_pos h]

/-- Witness for the amended C7 at a concrete decided triage record. -/
theorem triage_checks_noop_when_decided_witness :
    Triage.triage_relevance "hallo" (some { skip_llm := true }) = none ∧
    Triage.triage_faq true (none, "none") "hallo" (some { skip_llm := true }) = none ∧
    Triage.triage_intent "hallo" (some { skip_llm := true }) = none :=
  triage_checks_noop_when_decided "hallo" (some { skip_llm := true }) true (none, "none") rfl

namespace SessionModel

theorem parseUserIntent_dumpUserIntent (u : UserIntent) :
    parseUserIntent (dumpUserIntent u) = some u := by
  cases u <;> rfl

theorem parseQAEntry_dumpQAEntry (e : QAIndexEntry) :
    parseQAEntry (dumpQAEntry e) = some e := by
  unfold parseQAEntry dumpQAEntry
  rw [parseUserIntent_dumpUserIntent]
  rfl

theorem mapM_parseQAEntry_dump (l : List QAIndexEntry) :
    (l.map dumpQAEntry).mapM parseQAEntry = some l := by
  induction l with
  | nil => rfl
  | cons e es ih =>
    rw [List.map_cons, List.mapM_cons, parseQAEntry_dumpQAEntry, ih]
    rfl

theorem map_migrate_dump_full_answers (l : List (String × FullAnswer)) :
    (l.map (fun kv => (kv.1, FullAnswerDump.obj kv.2.text kv.2.sources))).map
      (fun kv => (kv.1, migrateFullAnswer kv.2)) = l := by
  induction l with
  | nil => rfl
  | cons kv rest ih =>
    rw [List.map_cons, List.map_cons, ih]
    rfl

theorem parseSession_dumpSession (s : SessionMemory) :
    parseSession (dumpSession s) = some s := by
  unfold parseSession dumpSession
  rw [mapM_parseQAEntry_dump]
  show some _ = some s
  rw [map_migrate_dump_full_answers]

/-- C8: saving a session and loading it back by its id yields a record with
identical qa_index, summary, recent_messages, and message_count (only
updated_at changes, set by save). -/
theorem session_save_load_roundtrip (store : SessionStore) (s : SessionMemory)
    (now : String) :
    ∃ s₂, ((SessionStore.save store s now).1.load s.session_id) = some s₂ ∧
      s₂.qa_index = s.qa_index ∧
      s₂.summary = s.summary ∧
      s₂.recent_messages = s.recent_messages ∧
      s₂.message_count = s.message_count := by
  refine ⟨{ s with updated_at := now }, ?_, rfl, rfl, rfl, rfl⟩
  unfold SessionStore.save SessionStore.load
  simp only [List.lookup, beq_self_eq_true, if_true]
  exact parseSession_dumpSession { s with updated_at := now }

end SessionModel

namespace SessionModel

theorem basenameAux_no_slash :
    ∀ (l acc : List Char), '/' ∉ acc → '/' ∉ basenameAux l acc := by
  intro l
  induction l with
  | nil =>
    intro acc h
    simpa [basenameAux] using h
  | cons c rest ih =>
    intro acc h
    unfold basenameAux
    split
    · exact ih [] (by simp)
    · rename_i hc
      refine ih (acc ++ [c]) ?_
      intro hmem
      rcases List.mem_append.mp hmem with h1 | h1
      · exact h h1
      · simp at h1
        exact hc h1.symm

theorem pyBasename_no_slash (s : String) : '/' ∉ (pyBasename s).data :=
  basenameAux_no_slash s.data [] (by simp)

theorem lookup_filter_ne (files : List (List String × SessionDump))
    (p path : List String) (hne : p ≠ path) :
    (files.filter (fun kv => kv.1 ≠ path)).lookup p = files.lookup p := by
  induction files with
  | nil => rfl
  | cons kv tl ih =>
    obtain ⟨k, v⟩ := kv
    simp only [decide_not] at ih
    by_cases hk : k = path
    · subst hk
      have hbeq : (p == k) = false := beq_eq_false_iff_ne.mpr hne
      simp [List.filter_cons, List.lookup, hbeq, ih]
    · by_cases hpk : (p == k) = true
      · simp [List.filter_cons, hk, List.lookup, hpk]
      · have hpk2 : (p == k) = false := by
          simpa using hpk
        simp [List.filter_cons, hk, List.lookup, hpk2, ih]

/-- C10: every SessionStore operation resolves its target file to
basename(session_id) + ".json" directly inside the configured sessions
directory: the file name contains no path separator and is none of the
special names, and save and delete leave every other path untouched. -/
theorem session_store_never_leaves_dir (sessions_dir : List String)
    (session_id : String) :
    sessionPath sessions_dir session_id = sessions_dir ++ [sessionFileName session_id] ∧
    '/' ∉ (sessionFileName session_id).data ∧
    sessionFileName session_id ≠ "" ∧
    sessionFileName session_id ≠ "." ∧
    sessionFileName session_id ≠ ".." ∧
    (∀ (store : SessionStore) (s : SessionMemory) (now : String) (p : List String),
      p ≠ sessionPath store.sessions_dir s.session_id →
      (store.save s now).1.files.lookup p = store.files.lookup p) ∧
    (∀ (store : SessionStore) (sid : String) (p : List String),
      p ≠ sessionPath store.sessions_dir sid →
      (store.delete sid).2.files.lookup p = store.files.lookup p) := by
  have hdata : (sessionFileName session_id).data =
      (pyBasename session_id).data ++ ".json".data := by
    unfold sessionFileName
    exact String.data_append _ _
  have hlen : (sessionFileName session_id).data.length =
      (pyBasename session_id).data.length + 5 := by
    rw [hdata]
    simp
  refine ⟨rfl, ?_, ?_, ?_, ?_, ?_, ?_⟩
  · rw [hdata]
    intro hmem
    rcases List.mem_append.mp hmem with h1 | h1
    · exact pyBasename_no_slash session_id h1
    · simp at h1
  · intro h
    have := congrArg (fun t => t.data.length) h
    simp only [hlen] at this
    simp at this
  · intro h
    have := congrArg (fun t => t.data.length) h
    simp only [hlen] at this
    simp at this
  · intro h
    have := congrArg (fun t => t.data.length) h
    simp only [hlen] at this
    simp at this
  · intro store s now p hne
    unfold SessionStore.save
    have hbeq : (p == sessionPath store.sessions_dir s.session_id) = false :=
      beq_eq_false_iff_ne.mpr hne
    simp only [List.lookup, hbeq]
    exact lookup_filter_ne store.files p _ hne
  · intro store sid p hne
    unfold SessionStore.delete
    split
    · exact lookup_filter_ne store.files p _ hne
    · rfl

end SessionModel

/-- Witness for C10: a traversal-style id resolves to a plain file name
inside the directory, and saving leaves an unrelated path untouched. -/
theorem session_store_never_leaves_dir_witness :
    SessionModel.sessionFileName "../secret" ≠ ".." ∧
    (SessionModel.SessionStore.save
        { sessions_dir := ["d"], files := [] } { session_id := "x" } "t").1.files.lookup
        ["evil"] =
      ({ sessions_dir := ["d"], files := [] } :
        SessionModel.SessionStore).files.lookup ["evil"] :=
  ⟨(SessionModel.session_store_never_leaves_dir ["d"] "../secret").2.2.2.2.1,
   (SessionModel.session_store_never_leaves_dir ["d"] "x").2.2.2.2.2.1
     { sessions_dir := ["d"], files := [] } { session_id := "x" } "t" ["evil"] (by decide)⟩

/-- C9: on the gather-parameters route the node emits the clarifying
question and attaches the pending intent as a session_update, but
save_session validates the merged dict through SessionMemory, whose
declared fields do not include pending_mcp_intent, so the pending intent is
dropped before persisting; the next turn's MCP triage then finds no pending
intent and passes through, although the read-back path would route to mcp
if the intent had survived. -/
theorem gather_pending_intent_dropped_on_save :
    (Triage.gather_mcp_params "ex-1"
        (some { route := "mcp_gather_params", skip_llm := true,
                mcp_law_type := some "zorgtoeslag",
                mcp_params := some [] })).session_update =
      some { law_type := some "zorgtoeslag", params := [] } ∧
    (Triage.gather_mcp_params "ex-1"
        (some { route := "mcp_gather_params", skip_llm := true,
                mcp_law_type := some "zorgtoeslag",
                mcp_params := some [] })).assistant_text =
      ((Triage.MCP_LAW_PARAMS_question.lookup "zorgtoeslag").getD "") ∧
    (SessionModel.save_session { sessions_dir := ["sessions"], files := [] } "t1"
        { session_id := "sess-1" }
        (some { law_type := some "zorgtoeslag", params := [] })
        false).2.pending_mcp_intent = none ∧
    Triage.triage_mcp (fun _ => [("inkomen", "25000")]) (some false)
      "mijn inkomen is 25000 euro" (some {})
      ((SessionModel.save_session { sessions_dir := ["sessions"], files := [] } "t1"
          { session_id := "sess-1" }
          (some { law_type := some "zorgtoeslag", params := [] })
          false).2.pending_mcp_intent) = none ∧
    ((Triage.triage_mcp (fun _ => [("inkomen", "25000")]) (some false)
        "mijn inkomen is 25000 euro" (some {})
        (some { law_type := some "zorgtoeslag", params := [] })).map
      Triage.TriageRecord.route) = some "mcp" := by
  refine ⟨rfl, rfl, rfl, ?_, ?_⟩
  · decide
  · decide
